import Mathlib

/-!
Verification of the PullRequestReviewer repository: a shallow embedding of
its diff-review pipeline (`review_agent.py`, `git_processor_service.py`,
`main.py`, `config.py`) together with theorems settling the frozen claims
about it.  External collaborators (the git engine, the hosting-platform
HTTP API, the language-model backends) are passed in as explicit function
parameters, mirroring the request/response boundaries of the code.
-/

/- ## Python string primitives used by the code -/

/-- Model of the Python `str.lower` character mapping for the code points
exercised here (ASCII letters; other characters are returned unchanged,
which agrees with CPython on every character that can contribute to the
comparisons performed by the program). -/
def pyCharLower (c : Char) : Char := c.toLower

/-- Model of Python `str.lower`: lower-case every character. -/
def pyLower (s : String) : String := String.mk (s.toList.map pyCharLower)

/-- Strip, at the list level, every leading and trailing character that
belongs to `cs` (the semantics of Python `str.strip(chars)`). -/
def pyStripList (cs : List Char) (l : List Char) : List Char :=
  ((l.dropWhile (fun c => cs.contains c)).reverse.dropWhile
    (fun c => cs.contains c)).reverse

/-- Model of Python `str.strip(chars)`: remove every leading and trailing
character contained in `chars`. -/
def pyStrip (chars : String) (s : String) : String :=
  String.mk (pyStripList chars.toList s.toList)

/-- Characters treated as line boundaries by Python `str.splitlines`. -/
def pyIsLineBreak (c : Char) : Bool :=
  c = '\n' || c = '\r' || c.toNat = 0x0B || c.toNat = 0x0C ||
  c.toNat = 0x1C || c.toNat = 0x1D || c.toNat = 0x1E ||
  c.toNat = 0x85 || c.toNat = 0x2028 || c.toNat = 0x2029

/-- Worker for `pySplitlines`: `acc` holds the current line reversed. -/
def pySplitlinesAux : List Char → List Char → List String
  | [], acc => if acc.isEmpty then [] else [String.mk acc.reverse]
  | '\r' :: '\n' :: rest, acc => String.mk acc.reverse :: pySplitlinesAux rest []
  | c :: rest, acc =>
      if pyIsLineBreak c then String.mk acc.reverse :: pySplitlinesAux rest []
      else pySplitlinesAux rest (c :: acc)

/-- Model of Python `str.splitlines()`: split at line boundaries, with
`"\r\n"` counted as a single boundary and no trailing empty line; the
empty string yields the empty list. -/
def pySplitlines (s : String) : List String := pySplitlinesAux s.toList []

/- ## Data model -/

/-- Modelled from the spec: the `Difference` record defined in
`schemas.py`, a file the sources do not include ("represents one changed
file between two commits"): `file` is the path of the changed file,
`change_type` the change classification reported by the version-control
engine, `diff` the unified-diff text, and `comment` the optional feedback
string, absent until a review backend sets it.  `model_copy` with a
`comment` override is modelled by Lean structure update. -/
structure Difference where
  file : String
  change_type : String
  diff : String
  comment : Option String := none
deriving DecidableEq, Repr

/- ## review_agent.py -/

/-- The prompt `review_diff` builds from a `Difference`
(`review_agent.py`, lines 15-19). -/
def build_user_input (difference : Difference) : String :=
  "File: " ++ difference.file ++ "\n" ++
  "Change type: " ++ difference.change_type ++ "\n" ++
  "Diff:\n" ++ difference.diff

/-- Embedding of `BaseReviewer.review_diff` (`review_agent.py`, lines 14-25),
parametrised by the concrete backend through `get_response`: build the
prompt, obtain the response, and either return the input unchanged (when
the response lower-cased and stripped of spaces and periods equals
`"none"`) or a copy of the input whose `comment` is the raw response. -/
def review_diff (get_response : String → String) (difference : Difference) :
    Difference :=
  let user_input := build_user_input difference
  let response := get_response user_input
  if pyStrip " ." (pyLower response) = "none" then difference
  else { difference with comment := some response }

/-- Embedding of `BaseReviewer.review_diffs` (`review_agent.py`, lines 27-28): apply
`review_diff` to each element of the list. -/
def review_diffs (get_response : String → String) (differences : List Difference) :
    List Difference :=
  differences.map (fun diff => review_diff get_response diff)

/-- Embedding of `MistralReviewer.get_response` (`review_agent.py`, lines 39-47).  The
underlying chat call `llm` may fail (Python: raise); the `try/except`
converts any such failure into the string
`"An error occurred: " ++ e`, so the function itself is total. -/
def MistralReviewer.get_response (llm : String → Except String String)
    (user_input : String) : String :=
  match llm user_input with
  | .ok response => response
  | .error e => "An error occurred: " ++ e

/-- Embedding of `OpenAIReviewer.get_response` (`review_agent.py`, lines 58-66): same
`try/except` conversion of a failed model call into error text. -/
def OpenAIReviewer.get_response (llm : String → Except String String)
    (user_input : String) : String :=
  match llm user_input with
  | .ok response => response
  | .error e => "An error occurred: " ++ e

/-- The process-wide settings object (`config.py`): each credential is
read from the environment with default `""`, so an absent variable is
represented by the empty string. -/
structure Settings where
  MISTRAL_API_KEY : String := ""
  OPENAI_API_KEY : String := ""
  GH_TOKEN : String := ""
deriving DecidableEq, Repr

/-- The `Settings` value built from an environment (`os.getenv(name, "")`). -/
def settingsFrom (env : String → Option String) : Settings :=
  { MISTRAL_API_KEY := (env "MISTRAL_API_KEY").getD ""
    OPENAI_API_KEY := (env "OPENAI_API_KEY").getD ""
    GH_TOKEN := (env "GH_TOKEN").getD "" }

/-- The state a constructed backend holds: its credential and the model
identifier it will call. -/
structure ReviewerState where
  api_key : String
  model : String
deriving DecidableEq, Repr

/-- Embedding of `MistralReviewer.__init__` (`review_agent.py`, lines 34-37): raise
`ValueError` when the key is falsy (the empty string), otherwise construct
the chat client.  The constructor performs no network or model call: it
only stores the credential and the model name. -/
def MistralReviewer.init (settings : Settings) : Except String ReviewerState :=
  if settings.MISTRAL_API_KEY = "" then .error "MISTRAL_API_KEY is not set"
  else .ok { api_key := settings.MISTRAL_API_KEY, model := "mistral-large-latest" }

/-- Embedding of `OpenAIReviewer.__init__` (`review_agent.py`, lines 53-56): same
fail-fast check for the OpenAI credential. -/
def OpenAIReviewer.init (settings : Settings) : Except String ReviewerState :=
  if settings.OPENAI_API_KEY = "" then .error "OPENAI_API_KEY is not set"
  else .ok { api_key := settings.OPENAI_API_KEY, model := "gpt-4-turbo" }

/- ## git_processor_service.py: URL handling -/

/-- Split a character list at every occurrence of `sep` (the semantics of
Python `str.split(sep)` for a one-character separator: `""` splits to
`[""]`, adjacent separators yield empty fields). -/
def pySplitChar (sep : Char) : List Char → List (List Char)
  | [] => [[]]
  | c :: rest =>
      let r := pySplitChar sep rest
      if c = sep then [] :: r
      else
        match r with
        | [] => [[c]]
        | line :: ls => (c :: line) :: ls

/-- Model of Python `str.split(sep)` for a one-character separator. -/
def pySplit (sep : Char) (s : String) : List String :=
  (pySplitChar sep s.toList).map String.mk

/-- Search for the first `"://"` in a character list and return what
follows it, or `none` when it does not occur. -/
def afterSchemeSep : List Char → Option (List Char)
  | ':' :: '/' :: '/' :: rest => some rest
  | _ :: rest => afterSchemeSep rest
  | [] => none

/-- Model of `urllib.parse.urlparse(url).path` for the URL shapes this
program handles: the query and fragment are cut off, the scheme (the part
before the first `"://"`) and the netloc (the host part up to the first
slash after the scheme) are removed, and the rest is the path.  A string
without `"://"` is returned whole, as Python does for a bare path. -/
def urlparse_path (url : String) : String :=
  let noFragment := url.toList.takeWhile (fun c => c ≠ '#' && c ≠ '?')
  match afterSchemeSep noFragment with
  | none => String.mk noFragment
  | some netlocAndPath =>
      String.mk (netlocAndPath.dropWhile (fun c => c ≠ '/'))

/-- Python raises `IndexError("list index out of range")` when a list is
indexed past its end; the message text used by the clone wrapper. -/
def indexErrorText : String := "list index out of range"

/-- Embedding of `GitProcessorService.get_repo_name_from_url`
(`git_processor_service.py`, lines 191-204): split the URL path on `"/"`
and take the element at index 2; `none` models the `IndexError` raised
when that position is absent. -/
def get_repo_name_from_url (url : String) : Option String :=
  (pySplit '/' (urlparse_path url)).get? 2

/-- Embedding of `GitProcessorService.parse_github_url` (`git_processor_service.py`,
lines 124-139): owner, repository and pull number are the path segments at
the fixed indices 1, 2 and 4; `none` models the `IndexError` raised when
any of those positions is absent. -/
def parse_github_url (url : String) : Option (String × String × String) :=
  let path_parts := pySplit '/' (urlparse_path url)
  match path_parts.get? 1, path_parts.get? 2, path_parts.get? 4 with
  | some owner, some repo, some pull_number => some (owner, repo, pull_number)
  | _, _, _ => none

/- ## git_processor_service.py: clone_repository -/

/-- Whether path `p` lies at or below the directory `dir` (used to model
`os.path.exists(dir)` and `shutil.rmtree(dir)` over a file list). -/
def isUnderDir (dir p : String) : Bool :=
  p == dir || List.isPrefixOf (dir ++ "/").toList p.toList

/-- Model of `os.path.exists(p)` over a filesystem given as the list of
its file paths: `p` exists when some file lies at or below it. -/
def pathExists (fs : List String) (p : String) : Bool :=
  fs.any (fun q => isUnderDir p q)

/-- Model of `shutil.rmtree(dir)`: remove every file at or below `dir`. -/
def rmtree (fs : List String) (dir : String) : List String :=
  fs.filter (fun q => !isUnderDir dir q)

/-- Result of a successful `clone_repository`: the path the working copy
was cloned into (what `self.repository` points at) and the resulting
filesystem contents. -/
structure CloneSuccess where
  repoPath : String
  files : List String
deriving DecidableEq, Repr

/-- Embedding of `GitProcessorService.clone_repository` (`git_processor_service.py`,
lines 27-47): derive the repository name from the URL, join it under
`repositories/`, remove the directory if it already exists, then clone.
`cloneOp url path` stands for `git.Repo.clone_from(url, path)` and yields
the files the fresh clone creates, or the failure text of the raised
exception; any failure (including the `IndexError` from the name
derivation) is re-raised as `"Failed to clone repository: ..."`. -/
def clone_repository (cloneOp : String → String → Except String (List String))
    (fs : List String) (url : String) : Except String CloneSuccess :=
  match get_repo_name_from_url url with
  | none => .error ("Failed to clone repository: " ++ indexErrorText)
  | some repo_name =>
      let repo_path := "repositories/" ++ repo_name
      let fs1 := if pathExists fs repo_path then rmtree fs repo_path else fs
      match cloneOp url repo_path with
      | .ok newFiles => .ok { repoPath := repo_path, files := fs1 ++ newFiles }
      | .error e => .error ("Failed to clone repository: " ++ e)

/- ## git_processor_service.py: branch diff -/

/-- The remote refs of the working repository: ref name paired with the
commit it points at. -/
abbrev Refs := List (String × String)

/-- Look a ref up by name among the remote refs (the semantics of
GitPython `origin.refs[name]` and `origin.refs.master`, which fail when
the name is absent). -/
def refLookup (refs : Refs) (name : String) : Option String :=
  (refs.find? (fun r => r.1 == name)).map (fun r => r.2)

/-- Embedding of `GitProcessorService.fetch_all_branches` (`git_processor_service.py`,
lines 58-68): run `git fetch --all` — modelled by `fetchOp`, which yields
the remote refs visible after fetching or a failure — and re-raise any
failure as `"Failed to fetch all branches: ..."`. -/
def fetch_all_branches (fetchOp : Except String Refs) : Except String Refs :=
  match fetchOp with
  | .ok refs => .ok refs
  | .error e => .error ("Failed to fetch all branches: " ++ e)

/-- The message of the exception raised at line 101 of
`git_processor_service.py` when the target branch is missing. -/
def branchNotFoundText (branch_name : String) : String :=
  "Branch '" ++ branch_name ++ "' not found in the repository."

/-- Stands for the text of the `AttributeError` GitPython raises from
`origin.refs.master` when the repository has no `master` ref; it is not an
`IndexError`, so line 103 wraps it.  Its exact wording plays no role in
any theorem. -/
def masterRefMissingText : String := "master"

/-- Embedding of `GitProcessorService.get_branch_diff` (`git_processor_service.py`,
lines 70-103): fetch all branches, resolve `origin.refs.master` and
`origin.refs[branch_name]` to commits, and diff them (`diffOf base target`
stands for building the `Difference` list from
`master_commit.diff(target_commit, create_patch=True)`).  A missing
target ref raises `IndexError`, reported as `branchNotFoundText`; every
other failure is re-raised as `"Failed to get branch differences: ..."`. -/
def get_branch_diff (fetchOp : Except String Refs)
    (diffOf : String → String → List Difference) (branch_name : String) :
    Except String (List Difference) :=
  match fetch_all_branches fetchOp with
  | .error e => .error ("Failed to get branch differences: " ++ e)
  | .ok refs =>
      match refLookup refs "master" with
      | none => .error ("Failed to get branch differences: " ++ masterRefMissingText)
      | some master_commit =>
          match refLookup refs branch_name with
          | none => .error (branchNotFoundText branch_name)
          | some target_commit => .ok (diffOf master_commit target_commit)

/- ## git_processor_service.py: comment submission -/

/-- Embedding of `GitProcessorService.determine_position` (`git_processor_service.py`,
lines 206-209): the comment is placed after the last line, at
`len(diff.splitlines()) - 1` (an integer, `-1` on an empty diff). -/
def determine_position (diff : Difference) : Int :=
  (pySplitlines diff.diff).length - 1

/-- The pull-request details `comment_on_diff` reads from the stored
GitHub API payload (`self.pr_details`). -/
structure PullRequestDetails where
  owner : String
  repo : String
  number : Nat
  head_sha : String
deriving DecidableEq, Repr

/-- The JSON payload `comment_on_diff` posts to the PR-comments
endpoint. -/
structure CommentPayload where
  body : String
  commit_id : String
  path : String
  position : Int
deriving DecidableEq, Repr

/-- The payload built at lines 237-242 of `git_processor_service.py`. -/
def buildCommentPayload (pr : PullRequestDetails) (difference : Difference)
    (body : String) : CommentPayload :=
  { body := body
    commit_id := pr.head_sha
    path := difference.file
    position := determine_position difference }

/-- Stands for the text of the `requests.exceptions.HTTPError` raised by
`response.raise_for_status()`; only the status decides whether it is
raised. -/
def httpErrorText (status : Nat) : String :=
  toString status ++ " Error for url"

/-- Model of `requests.Response.raise_for_status()`: raise exactly for a
4xx or 5xx status code (3xx responses pass silently). -/
def raise_for_status (status : Nat) : Except String Unit :=
  if 400 ≤ status ∧ status < 600 then .error (httpErrorText status) else .ok ()

/-- The observable effects of one `comment_on_diff` call: the payloads of
the HTTP POST requests it issued and the lines it printed. -/
structure SubmitOutcome where
  httpCalls : List CommentPayload
  printed : List String
deriving DecidableEq, Repr

/-- Embedding of `GitProcessorService.comment_on_diff` (`git_processor_service.py`,
lines 213-248): return immediately when the `Difference` carries no
comment; otherwise build the payload, POST it (`post` stands for
`requests.post` and yields the HTTP status of the response), and on a
`raise_for_status` failure print `"Failed to post comment: ..."` instead
of raising.  The `token` only feeds the request headers, which carry no
other observable information. -/
def comment_on_diff (pr : PullRequestDetails) (post : CommentPayload → Nat)
    (difference : Difference) (token : String) : SubmitOutcome :=
  match difference.comment with
  | none => { httpCalls := [], printed := [] }
  | some body =>
      let data := buildCommentPayload pr difference body
      let status := post data
      match raise_for_status status with
      | .ok _ => { httpCalls := [data], printed := [] }
      | .error e =>
          { httpCalls := [data], printed := ["Failed to post comment: " ++ e] }

/-- The pull-request mode loop of `main.py` (lines 18-23): review each
`Difference` and submit the reviewed record, collecting the reviewed
record and the submission outcome for every element. -/
def pull_request_loop (pr : PullRequestDetails) (post : CommentPayload → Nat)
    (get_response : String → String) (token : String)
    (differences : List Difference) : List (Difference × SubmitOutcome) :=
  differences.map (fun difference =>
    let reviewed_diff := review_diff get_response difference
    (reviewed_diff, comment_on_diff pr post reviewed_diff token))

/- ## Theorems -/

/-- Unfolding lemma for `review_diff` with a backend that ignores the
prompt and answers with a fixed response. -/
theorem review_diff_const (response : String) (d : Difference) :
    review_diff (fun _ => response) d =
      if pyStrip " ." (pyLower response) = "none" then d
      else { d with comment := some response } := rfl

/-- Unfolding lemma for `review_diff` with an arbitrary backend. -/
theorem review_diff_eq (get_response : String → String) (d : Difference) :
    review_diff get_response d =
      if pyStrip " ." (pyLower (get_response (build_user_input d))) = "none" then d
      else { d with comment := some (get_response (build_user_input d)) } := rfl

/-- Dropping a prefix from a list whose last element the predicate keeps
leaves that last element in place. -/
theorem dropWhile_append_singleton {α : Type} (p : α → Bool) (a : α)
    (h : p a = false) (xs : List α) :
    ∃ u, List.dropWhile p (xs ++ [a]) = u ++ [a] := by
  induction xs with
  | nil => exact ⟨[], by simp [List.dropWhile_cons, h]⟩
  | cons c cs ih =>
      by_cases hc : p c
      · simpa [List.dropWhile_cons, hc] using ih
      · exact ⟨c :: cs, by simp [List.dropWhile_cons, hc]⟩

/-- Stripping does not remove a head character that is outside the
stripped set. -/
theorem pyStripList_cons_of_not_mem (sc : List Char) (a : Char) (t : List Char)
    (h : sc.contains a = false) :
    ∃ u, pyStripList sc (a :: t) = a :: u := by
  obtain ⟨u, hu⟩ :=
    dropWhile_append_singleton (fun c => sc.contains c) a (by simpa using h) t.reverse
  refine ⟨u.reverse, ?_⟩
  unfold pyStripList
  rw [List.dropWhile_cons]
  simp only [h, Bool.false_eq_true, if_false]
  rw [List.reverse_cons, hu]
  simp

/-- The error text a backend substitutes for a failed model call never
normalizes to the `"none"` sentinel, so it always becomes feedback. -/
theorem error_text_not_none (e : String) :
    pyStrip " ." (pyLower ("An error occurred: " ++ e)) ≠ "none" := by
  have hdata : ("An error occurred: " ++ e).toList =
      "An error occurred: ".toList ++ e.toList := by
    simp [String.toList, String.data_append]
  have hmap : ("An error occurred: ".toList).map pyCharLower =
      'a' :: "n error occurred: ".toList := by decide
  unfold pyStrip pyLower
  rw [hdata, List.map_append, hmap, List.cons_append]
  rw [show (String.mk ('a' :: ("n error occurred: ".toList ++
      e.toList.map pyCharLower))).toList =
      'a' :: ("n error occurred: ".toList ++ e.toList.map pyCharLower) from rfl]
  obtain ⟨u, hu⟩ := pyStripList_cons_of_not_mem (" .".toList) 'a'
    ("n error occurred: ".toList ++ e.toList.map pyCharLower) (by decide)
  rw [hu]
  intro hcontra
  have h2 := congrArg String.data hcontra
  have h4 : (String.mk ('a' :: u)).data = 'a' :: u := rfl
  rw [h4, show "none".data = ['n', 'o', 'n', 'e'] from rfl] at h2
  simp at h2

/-- Unfolding lemma for `clone_repository` once the repository name has
been derived from the URL. -/
theorem clone_repository_some
    (cloneOp : String → String → Except String (List String))
    (fs : List String) (url name : String)
    (h : get_repo_name_from_url url = some name) :
    clone_repository cloneOp fs url =
      (let repo_path := "repositories/" ++ name
       let fs1 := if pathExists fs repo_path then rmtree fs repo_path else fs
       match cloneOp url repo_path with
       | .ok newFiles => .ok { repoPath := repo_path, files := fs1 ++ newFiles }
       | .error e => .error ("Failed to clone repository: " ++ e)) := by
  unfold clone_repository
  rw [h]

/-- C5: for every `Difference`, `determine_position` equals the number of
lines of the diff text, in the sense of Python `splitlines`, minus one,
and in particular equals `-1` on an empty diff, so a comment always
anchors to the last line of the patch. -/
theorem determine_position_last_line (d : Difference) :
    determine_position d = ((pySplitlines d.diff).length : Int) - 1 ∧
    (d.diff = "" → determine_position d = -1) := by
  refine ⟨rfl, fun h => ?_⟩
  have hempty : pySplitlines d.diff = [] := by
    rw [h]; rfl
  simp [determine_position, hempty]

/-- Witness for C5: a concrete deleted file with an empty diff gets
position `-1`. -/
theorem determine_position_last_line_witness :
    determine_position { file := "b.py", change_type := "D", diff := "" } = -1 :=
  (determine_position_last_line
    { file := "b.py", change_type := "D", diff := "" }).2 rfl

/-- C9: submission is a no-op on a `Difference` without a comment — no
payload is posted and nothing is printed. -/
theorem comment_on_diff_noop_without_comment (pr : PullRequestDetails)
    (post : CommentPayload → Nat) (d : Difference) (token : String)
    (h : d.comment = none) :
    comment_on_diff pr post d token = { httpCalls := [], printed := [] } := by
  unfold comment_on_diff
  rw [h]

/-- Witness for C9: a concrete modified file lacking feedback triggers no
HTTP call and no printed line. -/
theorem comment_on_diff_noop_without_comment_witness :
    comment_on_diff { owner := "octo", repo := "hello", number := 42, head_sha := "abc" }
      (fun _ => 404)
      { file := "a.py", change_type := "M", diff := "+x", comment := none }
      "tok" = { httpCalls := [], printed := [] } :=
  comment_on_diff_noop_without_comment _ _ _ _ rfl

/-- C7: each backend constructor fails exactly when its required key is
missing from the settings (the empty string, the value an absent
environment variable yields), and the constructor is a pure function of
the settings — on success it merely stores the credential and the model
identifier, making no network or model call. -/
theorem reviewer_init_fails_fast_iff_key_missing (s : Settings) :
    ((∃ e, MistralReviewer.init s = .error e) ↔ s.MISTRAL_API_KEY = "") ∧
    (s.MISTRAL_API_KEY = "" →
      MistralReviewer.init s = .error "MISTRAL_API_KEY is not set") ∧
    (s.MISTRAL_API_KEY ≠ "" →
      MistralReviewer.init s =
        .ok { api_key := s.MISTRAL_API_KEY, model := "mistral-large-latest" }) ∧
    ((∃ e, OpenAIReviewer.init s = .error e) ↔ s.OPENAI_API_KEY = "") ∧
    (s.OPENAI_API_KEY = "" →
      OpenAIReviewer.init s = .error "OPENAI_API_KEY is not set") ∧
    (s.OPENAI_API_KEY ≠ "" →
      OpenAIReviewer.init s =
        .ok { api_key := s.OPENAI_API_KEY, model := "gpt-4-turbo" }) := by
  unfold MistralReviewer.init OpenAIReviewer.init
  by_cases hm : s.MISTRAL_API_KEY = "" <;> by_cases ho : s.OPENAI_API_KEY = "" <;>
    simp [hm, ho]

/-- Witness for C7: with both keys absent, both constructors fail with
the respective message; with both keys present, both succeed. -/
theorem reviewer_init_fails_fast_iff_key_missing_witness :
    MistralReviewer.init { MISTRAL_API_KEY := "", OPENAI_API_KEY := "k", GH_TOKEN := "" } =
      .error "MISTRAL_API_KEY is not set" ∧
    OpenAIReviewer.init { MISTRAL_API_KEY := "k", OPENAI_API_KEY := "", GH_TOKEN := "" } =
      .error "OPENAI_API_KEY is not set" ∧
    MistralReviewer.init { MISTRAL_API_KEY := "m", OPENAI_API_KEY := "o", GH_TOKEN := "" } =
      .ok { api_key := "m", model := "mistral-large-latest" } :=
  ⟨(reviewer_init_fails_fast_iff_key_missing _).2.1 rfl,
   (reviewer_init_fails_fast_iff_key_missing _).2.2.2.2.1 rfl,
   (reviewer_init_fails_fast_iff_key_missing _).2.2.1 (by decide)⟩

/-- C10: `review_diff` never changes the `file`, `change_type` or `diff`
fields; its result is either the input itself or the input with only the
`comment` field overridden by the raw response; and `review_diffs` is the
element-wise map of `review_diff`, preserving list length and order. -/
theorem review_diff_frame_preservation (get_response : String → String)
    (d : Difference) (ds : List Difference) :
    (review_diff get_response d).file = d.file ∧
    (review_diff get_response d).change_type = d.change_type ∧
    (review_diff get_response d).diff = d.diff ∧
    (review_diff get_response d = d ∨
      review_diff get_response d =
        { d with comment := some (get_response (build_user_input d)) }) ∧
    (review_diffs get_response ds).length = ds.length ∧
    (∀ i, (review_diffs get_response ds).get? i =
      (ds.get? i).map (review_diff get_response)) := by
  refine ⟨?hf, ?hc, ?hd, ?he, ?hlen, ?hidx⟩
  case hidx =>
    intro i
    simp [review_diffs, List.get?_eq_getElem?, List.getElem?_map]
  case hlen =>
    simp [review_diffs]
  all_goals
    unfold review_diff
    by_cases h : pyStrip " ." (pyLower (get_response (build_user_input d))) = "none" <;>
      simp [h]

/-- C1: on a feedback-free input, `review_diff` returns the record
unchanged exactly when the response, lower-cased and stripped of spaces
and periods, equals `"none"`; any other response yields a copy of the
input whose `comment` is the raw, untrimmed response text. -/
theorem review_diff_none_sentinel (response : String) (d : Difference) :
    (pyStrip " ." (pyLower response) = "none" →
      review_diff (fun _ => response) d = d) ∧
    (pyStrip " ." (pyLower response) ≠ "none" →
      review_diff (fun _ => response) d = { d with comment := some response }) ∧
    (d.comment = none →
      (review_diff (fun _ => response) d = d ↔
        pyStrip " ." (pyLower response) = "none")) := by
  rw [review_diff_const]
  refine ⟨fun h => by rw [if_pos h], fun h => by rw [if_neg h],
    fun hc => ⟨?_, fun h => by rw [if_pos h]⟩⟩
  intro heq
  by_contra hne
  rw [if_neg hne] at heq
  have h2 := congrArg Difference.comment heq
  simp [hc] at h2

/-- Witness for C1: the response `" none. "` leaves a concrete record
unchanged, while `"nonenominal"` becomes its feedback verbatim. -/
theorem review_diff_none_sentinel_witness :
    review_diff (fun _ => " none. ")
      { file := "a.py", change_type := "M", diff := "+x", comment := none } =
      { file := "a.py", change_type := "M", diff := "+x", comment := none } ∧
    review_diff (fun _ => "nonenominal")
      { file := "a.py", change_type := "M", diff := "+x", comment := none } =
      { file := "a.py", change_type := "M", diff := "+x",
        comment := some "nonenominal" } :=
  ⟨(review_diff_none_sentinel " none. " _).1 (by decide),
   (review_diff_none_sentinel "nonenominal" _).2.1 (by decide)⟩

/-- C2: when the underlying model call fails, each concrete backend
returns the descriptive error text instead of propagating the failure,
for every prompt text; fed through `review_diff`, that text becomes the
feedback of the reviewed record. -/
theorem get_response_never_raises (llm : String → Except String String)
    (user_input : String) (e : String) (h : llm user_input = .error e) :
    MistralReviewer.get_response llm user_input = "An error occurred: " ++ e ∧
    OpenAIReviewer.get_response llm user_input = "An error occurred: " ++ e ∧
    (∀ d : Difference, build_user_input d = user_input →
      review_diff (MistralReviewer.get_response llm) d =
        { d with comment := some ("An error occurred: " ++ e) } ∧
      review_diff (OpenAIReviewer.get_response llm) d =
        { d with comment := some ("An error occurred: " ++ e) }) := by
  have hm : MistralReviewer.get_response llm user_input =
      "An error occurred: " ++ e := by
    unfold MistralReviewer.get_response
    rw [h]
  have ho : OpenAIReviewer.get_response llm user_input =
      "An error occurred: " ++ e := by
    unfold OpenAIReviewer.get_response
    rw [h]
  refine ⟨hm, ho, fun d hd => ⟨?_, ?_⟩⟩
  · rw [review_diff_eq, hd, hm, if_neg (error_text_not_none e)]
  · rw [review_diff_eq, hd, ho, if_neg (error_text_not_none e)]

/-- Witness for C2: a backend whose model call fails with `"boom"`
reviews a concrete record into one carrying the error text as its
comment. -/
theorem get_response_never_raises_witness :
    review_diff
      (MistralReviewer.get_response (fun _ => .error "boom"))
      { file := "a.py", change_type := "M", diff := "+x", comment := none } =
      { file := "a.py", change_type := "M", diff := "+x",
        comment := some "An error occurred: boom" } :=
  ((get_response_never_raises (fun _ => .error "boom")
      (build_user_input
        { file := "a.py", change_type := "M", diff := "+x", comment := none })
      "boom" rfl).2.2
    { file := "a.py", change_type := "M", diff := "+x", comment := none }
    rfl).1

/-- C3: `clone_repository` clones into `repositories/` joined with the
name derived from the URL path; when that directory already exists, it is
removed entirely first, so a pre-existing sentinel file below it is absent
after a successful clone (provided the fresh clone does not recreate it);
and a failing clone operation surfaces as the
`"Failed to clone repository: ..."` error. -/
theorem clone_repository_always_fresh
    (cloneOp : String → String → Except String (List String))
    (url name : String) (fs newFiles : List String) (sentinel e : String)
    (hname : get_repo_name_from_url url = some name) :
    (cloneOp url ("repositories/" ++ name) = .ok newFiles →
      sentinel ∈ fs → isUnderDir ("repositories/" ++ name) sentinel = true →
      sentinel ∉ newFiles →
      ∃ res, clone_repository cloneOp fs url = .ok res ∧
        res.repoPath = "repositories/" ++ name ∧ sentinel ∉ res.files) ∧
    (cloneOp url ("repositories/" ++ name) = .error e →
      clone_repository cloneOp fs url =
        .error ("Failed to clone repository: " ++ e)) := by
  rw [clone_repository_some cloneOp fs url name hname]
  constructor
  · intro hok hmem hunder hnew
    have hex : pathExists fs ("repositories/" ++ name) = true := by
      unfold pathExists
      rw [List.any_eq_true]
      exact ⟨sentinel, hmem, hunder⟩
    simp only [hok, hex, if_true]
    refine ⟨_, rfl, rfl, ?_⟩
    intro hmem2
    rcases List.mem_append.mp hmem2 with hin | hin
    · have := (List.mem_filter.mp hin).2
      rw [hunder] at this
      simp at this
    · exact hnew hin
  · intro herr
    simp only [herr]

/-- Witness for C3: cloning `https://github.com/owner/repo.git` targets
`repositories/repo.git`; a sentinel file previously below that directory
is gone after the clone, and a clone failure surfaces as the wrapped
error. -/
theorem clone_repository_always_fresh_witness :
    (∃ res,
      clone_repository (fun _ _ => .ok ["repositories/repo.git/fresh.txt"])
        ["repositories/repo.git/sentinel.txt", "other.txt"]
        "https://github.com/owner/repo.git" = .ok res ∧
      res.repoPath = "repositories/repo.git" ∧
      "repositories/repo.git/sentinel.txt" ∉ res.files) ∧
    clone_repository (fun _ _ => .error "network down")
      ["repositories/repo.git/sentinel.txt", "other.txt"]
      "https://github.com/owner/repo.git" =
      .error "Failed to clone repository: network down" :=
  ⟨(clone_repository_always_fresh (fun _ _ => .ok ["repositories/repo.git/fresh.txt"])
      "https://github.com/owner/repo.git" "repo.git"
      ["repositories/repo.git/sentinel.txt", "other.txt"]
      ["repositories/repo.git/fresh.txt"]
      "repositories/repo.git/sentinel.txt" "unused" (by decide)).1
    rfl (by decide) (by decide) (by decide),
   (clone_repository_always_fresh (fun _ _ => .error "network down")
      "https://github.com/owner/repo.git" "repo.git"
      ["repositories/repo.git/sentinel.txt", "other.txt"]
      [] "unused" "network down" (by decide)).2 rfl⟩

/-- C4: with the remote refs visible after a successful fetch, the diff
operation fails with the branch-not-found error exactly when the target
ref is absent from those refs; when the target is present the diff is
computed against the commit of the fixed `master` ref (the call takes no
base-branch argument); and a fetch failure surfaces as the wrapped fetch
error instead. -/
theorem get_branch_diff_master_base
    (refs : Refs) (diffOf : String → String → List Difference)
    (branch_name master_commit e : String)
    (hm : refLookup refs "master" = some master_commit) :
    (get_branch_diff (.ok refs) diffOf branch_name =
        .error (branchNotFoundText branch_name) ↔
      refLookup refs branch_name = none) ∧
    (∀ target_commit, refLookup refs branch_name = some target_commit →
      get_branch_diff (.ok refs) diffOf branch_name =
        .ok (diffOf master_commit target_commit)) ∧
    (get_branch_diff (.error e) diffOf branch_name =
      .error ("Failed to get branch differences: " ++
        ("Failed to fetch all branches: " ++ e))) := by
  unfold get_branch_diff fetch_all_branches
  rcases h : refLookup refs branch_name with _ | tc <;>
    simp [hm, h]

/-- Witness for C4: with refs `master` and `dev`, asking for a missing
branch yields the branch-not-found error, and asking for `dev` diffs the
`master` commit against the `dev` commit. -/
theorem get_branch_diff_master_base_witness :
    get_branch_diff (.ok [("master", "m1"), ("dev", "t1")])
      (fun a b => [{ file := a, change_type := "M", diff := b, comment := none }])
      "feature" = .error (branchNotFoundText "feature") ∧
    get_branch_diff (.ok [("master", "m1"), ("dev", "t1")])
      (fun a b => [{ file := a, change_type := "M", diff := b, comment := none }])
      "dev" = .ok [{ file := "m1", change_type := "M", diff := "t1", comment := none }] :=
  ⟨(get_branch_diff_master_base [("master", "m1"), ("dev", "t1")]
      (fun a b => [{ file := a, change_type := "M", diff := b, comment := none }])
      "feature" "m1" "unused" (by decide)).1.mpr (by decide),
   (get_branch_diff_master_base [("master", "m1"), ("dev", "t1")]
      (fun a b => [{ file := a, change_type := "M", diff := b, comment := none }])
      "dev" "m1" "unused" (by decide)).2.1 "t1" (by decide)⟩

/-- Unfolding lemma for `parse_github_url` as a match on the three fixed
segment positions. -/
theorem parse_github_url_eq (url : String) :
    parse_github_url url =
      match (pySplit '/' (urlparse_path url)).get? 1,
          (pySplit '/' (urlparse_path url)).get? 2,
          (pySplit '/' (urlparse_path url)).get? 4 with
      | some owner, some repo, some pull_number => some (owner, repo, pull_number)
      | _, _, _ => none := rfl

/-- C6: parsing a pull-request URL fails exactly when the URL path has
fewer than five `/`-separated segments (the expected positions 1, 2 and 4
are then not all present); when they are present, the parse returns
exactly the segments at those fixed positions as owner, repository and
pull number. -/
theorem parse_github_url_fixed_segments (url : String) :
    (parse_github_url url = none ↔
      (pySplit '/' (urlparse_path url)).length < 5) ∧
    (∀ owner repo pull_number,
      (pySplit '/' (urlparse_path url)).get? 1 = some owner →
      (pySplit '/' (urlparse_path url)).get? 2 = some repo →
      (pySplit '/' (urlparse_path url)).get? 4 = some pull_number →
      parse_github_url url = some (owner, repo, pull_number)) := by
  rw [parse_github_url_eq]
  generalize pySplit '/' (urlparse_path url) = parts
  constructor
  · rcases h4 : parts.get? 4 with _ | p
    · have hlen : parts.length ≤ 4 := List.get?_eq_none.mp h4
      rcases h1 : parts.get? 1 with _ | o <;>
        rcases h2 : parts.get? 2 with _ | r <;>
        simp [h1, h2, h4] <;> omega
    · obtain ⟨hlt, -⟩ := List.get?_eq_some.mp h4
      rw [List.get?_eq_get (by omega : 1 < parts.length)]
      rw [List.get?_eq_get (by omega : 2 < parts.length)]
      simp [h4]
      omega
  · intro owner repo pull_number h1 h2 h4
    rw [h1, h2, h4]

/-- Witness for C6: the URL `https://github.com/octo/hello/pull/42`
parses to owner `octo`, repository `hello` and pull number `42`, while a
URL whose path stops at the owner fails to parse. -/
theorem parse_github_url_fixed_segments_witness :
    parse_github_url "https://github.com/octo/hello/pull/42" =
      some ("octo", "hello", "42") ∧
    parse_github_url "https://github.com/octo" = none :=
  ⟨(parse_github_url_fixed_segments "https://github.com/octo/hello/pull/42").2
      "octo" "hello" "42" (by decide) (by decide) (by decide),
   (parse_github_url_fixed_segments "https://github.com/octo").1.mpr (by decide)⟩

/-- Unfolding lemma for `comment_on_diff` on a record that carries a
comment. -/
theorem comment_on_diff_some (pr : PullRequestDetails)
    (post : CommentPayload → Nat) (d : Difference) (token body : String)
    (hc : d.comment = some body) :
    comment_on_diff pr post d token =
      match raise_for_status (post (buildCommentPayload pr d body)) with
      | .ok _ =>
          { httpCalls := [buildCommentPayload pr d body], printed := [] }
      | .error e =>
          { httpCalls := [buildCommentPayload pr d body],
            printed := ["Failed to post comment: " ++ e] } := by
  unfold comment_on_diff
  rw [hc]

/-- Counterexample to C8 as stated: a concrete `Difference` with a
comment present receives a `302` response — a non-2xx status — yet the
submission reports nothing: `raise_for_status` only raises for 4xx/5xx,
so a 3xx response is passed over silently rather than logged. -/
theorem comment_on_diff_302_not_reported :
    ({ file := "a.py", change_type := "M", diff := "+x",
        comment := some "needs work" } : Difference).comment =
      some "needs work" ∧
    ¬ (200 ≤ 302 ∧ 302 < 300) ∧
    (comment_on_diff
      { owner := "octo", repo := "hello", number := 42, head_sha := "sha" }
      (fun _ => 302)
      { file := "a.py", change_type := "M", diff := "+x",
        comment := some "needs work" }
      "tok").printed = [] := by
  exact ⟨rfl, by decide, rfl⟩

/-- C8 amended: for every `Difference` with a comment present, a 4xx or
5xx response from the comment-creation endpoint does not raise out of the
submission — the failure is printed for that item — while a 3xx response
is passed over silently; in either case the pull-request loop processes
every remaining `Difference` of the batch, element-wise and in order. -/
theorem comment_on_diff_http_failure_isolated
    (pr : PullRequestDetails) (post : CommentPayload → Nat) (token : String)
    (get_response : String → String) (ds : List Difference)
    (d : Difference) (body : String) (hc : d.comment = some body) :
    (400 ≤ post (buildCommentPayload pr d body) →
      post (buildCommentPayload pr d body) < 600 →
      comment_on_diff pr post d token =
        { httpCalls := [buildCommentPayload pr d body],
          printed := ["Failed to post comment: " ++
            httpErrorText (post (buildCommentPayload pr d body))] }) ∧
    (pull_request_loop pr post get_response token ds).length = ds.length ∧
    (∀ i, (pull_request_loop pr post get_response token ds).get? i =
      (ds.get? i).map (fun difference =>
        (review_diff get_response difference,
         comment_on_diff pr post (review_diff get_response difference) token))) := by
  refine ⟨fun h4 h6 => ?_, by simp [pull_request_loop], fun i => by
    simp [pull_request_loop, List.get?_eq_getElem?, List.getElem?_map]⟩
  rw [comment_on_diff_some pr post d token body hc]
  have hraise : raise_for_status (post (buildCommentPayload pr d body)) =
      .error (httpErrorText (post (buildCommentPayload pr d body))) := by
    unfold raise_for_status
    rw [if_pos ⟨h4, h6⟩]
  rw [hraise]

/-- Witness for C8 amended: a concrete comment rejected with status `404`
is reported in the printed output, and a two-element batch still yields
two processed results. -/
theorem comment_on_diff_http_failure_isolated_witness :
    (comment_on_diff
      { owner := "octo", repo := "hello", number := 42, head_sha := "sha" }
      (fun _ => 404)
      { file := "a.py", change_type := "M", diff := "+x",
        comment := some "needs work" }
      "tok").printed = ["Failed to post comment: " ++ httpErrorText 404] ∧
    (pull_request_loop
      { owner := "octo", repo := "hello", number := 42, head_sha := "sha" }
      (fun _ => 404) (fun _ => "None") "tok"
      [{ file := "a.py", change_type := "M", diff := "+x", comment := none },
       { file := "b.py", change_type := "D", diff := "", comment := none }]).length = 2 :=
  ⟨by
    rw [(comment_on_diff_http_failure_isolated
      { owner := "octo", repo := "hello", number := 42, head_sha := "sha" }
      (fun _ => 404) "tok" (fun _ => "None") []
      { file := "a.py", change_type := "M", diff := "+x",
        comment := some "needs work" }
      "needs work" rfl).1 (by decide) (by decide)]
   , (comment_on_diff_http_failure_isolated
      { owner := "octo", repo := "hello", number := 42, head_sha := "sha" }
      (fun _ => 404) "tok" (fun _ => "None")
      [{ file := "a.py", change_type := "M", diff := "+x", comment := none },
       { file := "b.py", change_type := "D", diff := "", comment := none }]
      { file := "a.py", change_type := "M", diff := "+x",
        comment := some "needs work" }
      "needs work" rfl).2.1⟩
